import Mathlib

/-!
Verification of `src/snippets/model.py` from fdon/keras-training-serving.

The snippet declares (but, because of a corrupted first line, never executes)
the architecture of a small convolutional neural network with two
classification heads.  We embed

* the raw text of the broken first line and a fragment of Python's lexical
  and statement grammar, to settle the parse-time behaviour of the module;
* the module body as a small Python/Keras AST, translated statement by
  statement from the source;
* the dataflow graph of declared layers (`snippetNodes`) together with an
  evaluator from the AST to that graph, shape inference, and the real-valued
  semantics of the softmax and sigmoid activations.
-/

namespace KerasModel

/-- Activation functions that occur in the snippet. -/
inductive Activation
  | relu
  | softmax
  | sigmoid
  deriving DecidableEq, Repr

/-- Padding modes of Keras convolution/pooling layers. -/
inductive Padding
  | same
  | valid
  deriving DecidableEq, Repr

/-- A declared layer, as written in `model.py`.  The dropout rate `0.2` is
recorded as the pair of decimal digits `2 / 10`. -/
inductive Layer
  | input (shape : List Nat)
  | conv2D (filters kernelH kernelW : Nat) (padding : Padding) (activation : Activation)
  | maxPooling2D (padding : Padding)
  | flatten
  | dense (units : Nat) (activation : Activation) (layerName : Option String)
  | dropout (rateNum rateDen : Nat)
  deriving DecidableEq, Repr

/-- A node of the dataflow graph: a layer together with the index of the node
producing its input tensor (`none` for the `Input` node). -/
structure Node where
  layer : Layer
  input : Option Nat
  deriving DecidableEq, Repr

/-- `IM_SIZE = 16` from line 2 of `model.py`. -/
def IM_SIZE : Nat := 16

/-- The dataflow graph declared by `model.py`, one node per layer call, in
source order.  Node 0 is `image_input`; nodes 1-2 the first Conv2D/pool pair
(both bound to `conv_1`); 3-4 the second pair (`conv_2`); 5 `conv_flat`;
6-7 `fc_1` (Dense then Dropout); 8-9 `fc_2` (Dense then Dropout); 10
`weather_output`; 11 `ground_output`. -/
def snippetNodes : List Node :=
  [ ⟨.input [IM_SIZE, IM_SIZE, 3], Option.none⟩,
    ⟨.conv2D 32 3 3 .same .relu, some 0⟩,
    ⟨.maxPooling2D .same, some 1⟩,
    ⟨.conv2D 32 3 3 .same .relu, some 2⟩,
    ⟨.maxPooling2D .same, some 3⟩,
    ⟨.flatten, some 4⟩,
    ⟨.dense 128 .relu Option.none, some 5⟩,
    ⟨.dropout 2 10, some 6⟩,
    ⟨.dense 128 .relu Option.none, some 7⟩,
    ⟨.dropout 2 10, some 8⟩,
    ⟨.dense 4 .softmax (some "weather"), some 9⟩,
    ⟨.dense 13 .sigmoid (some "ground"), some 9⟩ ]

/-- The layer stored at index `i` of the graph. -/
def nodeLayer (nodes : List Node) (i : Nat) : Option Layer :=
  (nodes.get? i).map Node.layer

/-- The input index stored at node `i` of the graph. -/
def nodeInput (nodes : List Node) (i : Nat) : Option (Option Nat) :=
  (nodes.get? i).map Node.input

/-- `true` iff node `j` consumes the tensor produced by node `i`. -/
def isConsumer (nodes : List Node) (i j : Nat) : Bool :=
  match nodes.get? j with
  | some n => n.input == some i
  | Option.none => false

/-- The indices of all nodes consuming the tensor produced by node `i`. -/
def consumers (nodes : List Node) (i : Nat) : List Nat :=
  (List.range nodes.length).filter (isConsumer nodes i)

/-- The output tensors of the graph: nodes whose result no later layer
consumes. -/
def sinks (nodes : List Node) : List Nat :=
  (List.range nodes.length).filter (fun i => consumers nodes i == [])

/-! ### The broken first line and Python parse-time behaviour -/

/-- The first line of `src/snippets/model.py`, verbatim: the `i` of `import`
is missing. -/
def firstLine : String := "mport tensorflow as tf"

/-- Splits a list of characters at spaces, accumulating the characters of the
current token in reverse in `acc`. -/
def splitTokens : List Char → List Char → List String
  | [], acc => if acc.isEmpty then [] else [String.mk acc.reverse]
  | c :: cs, acc =>
      if c == ' ' then
        if acc.isEmpty then splitTokens cs []
        else String.mk acc.reverse :: splitTokens cs []
      else splitTokens cs (c :: acc)

/-- Whitespace tokenization of a source line. -/
def tokenize (s : String) : List String :=
  splitTokens s.toList []

/-- The reserved keywords of Python 3. -/
def pythonKeywords : List String :=
  ["False", "None", "True", "and", "as", "assert", "async", "await",
   "break", "class", "continue", "def", "del", "elif", "else", "except",
   "finally", "for", "from", "global", "if", "import", "in", "is",
   "lambda", "nonlocal", "not", "or", "pass", "raise", "return", "try",
   "while", "with", "yield"]

/-- The soft keywords of Python 3, which may open a statement even though they
lex as NAME tokens. -/
def pythonSoftKeywords : List String :=
  ["match", "case", "type"]

/-- `true` iff `c` may appear in a Python identifier after the first
character. -/
def isIdentChar (c : Char) : Bool :=
  c.isAlpha || c.isDigit || c == '_'

/-- `true` iff `s` lexes as a single Python NAME token. -/
def isPyName (s : String) : Bool :=
  match s.toList with
  | [] => false
  | c :: cs => (c.isAlpha || c == '_') && cs.all isIdentChar

/-- Modelled from the spec: no production of Python's statement grammar lets a
statement begin with two adjacent NAME tokens when the first is neither a
reserved keyword nor a soft keyword, so such a line is rejected by the
parser. -/
def startsWithAdjacentNames (toks : List String) : Bool :=
  match toks with
  | t1 :: t2 :: _ =>
      isPyName t1 && !(pythonKeywords.contains t1) &&
      !(pythonSoftKeywords.contains t1) &&
      isPyName t2 && !(pythonKeywords.contains t2)
  | _ => false

/-- The result of handing a module to the Python interpreter. -/
inductive PyResult
  | syntaxError
  | ran (bound : List String)
  deriving DecidableEq, Repr

/-- Modelled from the spec: CPython parses an entire module before executing
any of its statements; when a line fails to parse the interpreter raises
`SyntaxError` and no statement is executed, so no name is ever bound. -/
def runModule (toks : List String) (bindings : List String) : PyResult :=
  if startsWithAdjacentNames toks then .syntaxError else .ran bindings

/-- The names the declarations of `model.py` would bind, in source order,
had the module parsed. -/
def declaredNames : List String :=
  ["tf", "IM_SIZE", "image_input", "conv_1", "conv_1", "conv_2", "conv_2",
   "conv_flat", "fc_1", "fc_1", "fc_2", "fc_2", "weather_output",
   "ground_output"]

/-! ### Chain structure of the dataflow graph -/

/-- `true` iff the dataflow graph is one single chain: node 0 has no input and
every later node takes as its sole input the result of the immediately
preceding call. -/
def linearChain (nodes : List Node) : Bool :=
  (List.range nodes.length).all fun j =>
    match nodes.get? j with
    | some n => if j = 0 then n.input == Option.none else n.input == some (j - 1)
    | Option.none => true

/-- The indices of nodes whose tensor is consumed by more than one later
layer, i.e. the fan-out points of the graph. -/
def fanOutPoints (nodes : List Node) : List Nat :=
  (List.range nodes.length).filter (fun i => 2 ≤ (consumers nodes i).length)

/-! ### Layer kinds and the backbone shared by the two heads -/

/-- `true` iff the layer is a convolution. -/
def isConv : Layer → Bool
  | .conv2D _ _ _ _ _ => true
  | _ => false

/-- `true` iff the layer is a dense (fully connected) layer. -/
def isDense : Layer → Bool
  | .dense _ _ _ => true
  | _ => false

/-- `true` iff the layer is a max-pooling layer. -/
def isPool : Layer → Bool
  | .maxPooling2D _ => true
  | _ => false

/-- `true` iff the layer is `Flatten`. -/
def isFlatten : Layer → Bool
  | .flatten => true
  | _ => false

/-- The indices of the nodes whose layer satisfies `p`, in source order. -/
def layerIndices (p : Layer → Bool) (nodes : List Node) : List Nat :=
  (List.range nodes.length).filter fun i =>
    match nodeLayer nodes i with
    | some l => p l
    | Option.none => false

/-- The chain of producers feeding node `i`, nearest first, ending at the
node with no input; `fuel` bounds the walk. -/
def ancestors (nodes : List Node) : Nat → Nat → List Nat
  | 0, _ => []
  | fuel + 1, i =>
      match nodes.get? i with
      | some n =>
          match n.input with
          | some j => j :: ancestors nodes fuel j
          | Option.none => []
      | Option.none => []

/-! ### Shape inference -/

/-- `a / b` rounded up. -/
def ceilDiv (a b : Nat) : Nat := (a + b - 1) / b

/-- Modelled from the spec: Keras static shape inference for the layers the
snippet uses.  Conv2D with `same` padding keeps the spatial dimensions and
sets the channel count to its filter count; MaxPooling2D with its default
2x2 pool and stride and `same` padding maps each spatial dimension `d` to
`ceil(d / 2)`; Flatten multiplies all dimensions; Dense replaces the last
dimension by its unit count; Dropout leaves the shape unchanged. -/
def layerOutShape : Layer → Option (List Nat) → Option (List Nat)
  | .input s, _ => some s
  | .conv2D f _ _ .same _, some [h, w, _] => some [h, w, f]
  | .maxPooling2D .same, some [h, w, c] => some [ceilDiv h 2, ceilDiv w 2, c]
  | .flatten, some dims => some [dims.foldl (fun a b => a * b) 1]
  | .dense u _ _, some (d :: ds) => some (((d :: ds).dropLast) ++ [u])
  | .dropout _ _, s => s
  | _, _ => Option.none

/-- The inferred shape of the tensor produced by node `i`; `fuel` bounds the
recursion through the producers. -/
def shapeAt (nodes : List Node) : Nat → Nat → Option (List Nat)
  | 0, _ => Option.none
  | fuel + 1, i =>
      match nodes.get? i with
      | some n =>
          match n.input with
          | some j => layerOutShape n.layer (shapeAt nodes fuel j)
          | Option.none => layerOutShape n.layer Option.none
      | Option.none => Option.none

/-! ### The module body as a Python/Keras AST

The statements of `model.py` translated one for one.  The AST also has
constructors for the kinds of statements and expressions the spec rules out
(loops, file and network I/O, CLI reading, thread spawning, training and
persistence API calls), so that their absence from the module is a checkable
fact rather than a vacuous one. -/

/-- The `tf.keras` API functions relevant to the snippet: the six layer
constructors it calls, plus `Model` assembly and the training/evaluation/
persistence methods it never calls. -/
inductive KerasAPI
  | Input
  | Conv2D
  | MaxPooling2D
  | Flatten
  | Dense
  | Dropout
  | Model
  | compile
  | fit
  | evaluate
  | save
  deriving DecidableEq, Repr

/-- Python expressions.  `floatLit a b` records the decimal literal `a / b`
(so `0.2` is `floatLit 2 10`); `layerCall api args applied` is
`tf.keras.layers.api(args)` optionally applied to the tensor `applied`;
`readLine`, `readFile`, `readArgv` and `netRecv` are the input channels the
snippet never uses. -/
inductive PyExpr
  | intLit (n : Nat)
  | floatLit (num den : Nat)
  | strLit (s : String)
  | nameRef (s : String)
  | tuple (elems : List PyExpr)
  | layerCall (api : KerasAPI) (args : List (Option String × PyExpr))
      (applied : Option PyExpr)
  | readLine
  | readFile (path : String)
  | readArgv (i : Nat)
  | netRecv

/-- Python statements: the forms the module uses (a broken line, imports,
assignments) and the effectful forms it does not. -/
inductive PyStmt
  | brokenLine (text : String)
  | pyImport (moduleName shortName : String)
  | assign (lhs : String) (rhs : PyExpr)
  | exprOnly (e : PyExpr)
  | whileLoop (body : List PyStmt)
  | forLoop (body : List PyStmt)
  | writeFile (path : String) (e : PyExpr)
  | netSend (e : PyExpr)
  | spawnThread (body : List PyStmt)

/-- The declarations of `model.py` (lines 2-35), one AST statement per source
statement, in source order. -/
def declsAST : List PyStmt :=
  [ .assign "IM_SIZE" (.intLit 16),
    .assign "image_input" (.layerCall .Input
      [(some "shape", .tuple [.nameRef "IM_SIZE", .nameRef "IM_SIZE", .intLit 3])]
      Option.none),
    .assign "conv_1" (.layerCall .Conv2D
      [(Option.none, .intLit 32),
       (some "kernel_size", .tuple [.intLit 3, .intLit 3]),
       (some "padding", .strLit "same"),
       (some "activation", .strLit "relu")]
      (some (.nameRef "image_input"))),
    .assign "conv_1" (.layerCall .MaxPooling2D
      [(some "padding", .strLit "same")]
      (some (.nameRef "conv_1"))),
    .assign "conv_2" (.layerCall .Conv2D
      [(Option.none, .intLit 32),
       (some "kernel_size", .tuple [.intLit 3, .intLit 3]),
       (some "padding", .strLit "same"),
       (some "activation", .strLit "relu")]
      (some (.nameRef "conv_1"))),
    .assign "conv_2" (.layerCall .MaxPooling2D
      [(some "padding", .strLit "same")]
      (some (.nameRef "conv_2"))),
    .assign "conv_flat" (.layerCall .Flatten [] (some (.nameRef "conv_2"))),
    .assign "fc_1" (.layerCall .Dense
      [(Option.none, .intLit 128), (some "activation", .strLit "relu")]
      (some (.nameRef "conv_flat"))),
    .assign "fc_1" (.layerCall .Dropout
      [(Option.none, .floatLit 2 10)]
      (some (.nameRef "fc_1"))),
    .assign "fc_2" (.layerCall .Dense
      [(Option.none, .intLit 128), (some "activation", .strLit "relu")]
      (some (.nameRef "fc_1"))),
    .assign "fc_2" (.layerCall .Dropout
      [(Option.none, .floatLit 2 10)]
      (some (.nameRef "fc_2"))),
    .assign "weather_output" (.layerCall .Dense
      [(Option.none, .intLit 4),
       (some "activation", .strLit "softmax"),
       (some "name", .strLit "weather")]
      (some (.nameRef "fc_2"))),
    .assign "ground_output" (.layerCall .Dense
      [(Option.none, .intLit 13),
       (some "activation", .strLit "sigmoid"),
       (some "name", .strLit "ground")]
      (some (.nameRef "fc_2"))) ]

/-- The whole module: the corrupted first line followed by the
declarations. -/
def moduleAST : List PyStmt :=
  .brokenLine "mport tensorflow as tf" :: declsAST

/-- Depth bound for the structural predicates on the AST; the module's
expressions nest three levels deep at most. -/
def astFuel : Nat := 100

/-- `true` iff evaluating the expression may read anything from outside the
process (stdin, a file, `argv`, the network); `true` when `fuel` runs out. -/
def exprReadsWorld : Nat → PyExpr → Bool
  | 0, _ => true
  | fuel + 1, e =>
      match e with
      | .readLine => true
      | .readFile _ => true
      | .readArgv _ => true
      | .netRecv => true
      | .tuple es => es.any (exprReadsWorld fuel)
      | .layerCall _ args applied =>
          (args.any fun p => exprReadsWorld fuel p.2) ||
          (match applied with
           | some e2 => exprReadsWorld fuel e2
           | Option.none => false)
      | _ => false

/-- `true` iff executing the statement may read anything from outside the
process. -/
def stmtReadsWorld : Nat → PyStmt → Bool
  | 0, _ => true
  | fuel + 1, s =>
      match s with
      | .assign _ e => exprReadsWorld (fuel + 1) e
      | .exprOnly e => exprReadsWorld (fuel + 1) e
      | .writeFile _ e => exprReadsWorld (fuel + 1) e
      | .netSend e => exprReadsWorld (fuel + 1) e
      | .whileLoop body => body.any (stmtReadsWorld fuel)
      | .forLoop body => body.any (stmtReadsWorld fuel)
      | .spawnThread body => body.any (stmtReadsWorld fuel)
      | _ => false

/-- `true` iff executing the statement may write state outside the process
(files or the network). -/
def stmtWritesWorld : Nat → PyStmt → Bool
  | 0, _ => true
  | fuel + 1, s =>
      match s with
      | .writeFile _ _ => true
      | .netSend _ => true
      | .whileLoop body => body.any (stmtWritesWorld fuel)
      | .forLoop body => body.any (stmtWritesWorld fuel)
      | .spawnThread body => body.any (stmtWritesWorld fuel)
      | _ => false

/-- `true` iff the statement contains a loop. -/
def stmtHasLoop : Nat → PyStmt → Bool
  | 0, _ => true
  | fuel + 1, s =>
      match s with
      | .whileLoop _ => true
      | .forLoop _ => true
      | .spawnThread body => body.any (stmtHasLoop fuel)
      | _ => false

/-- `true` iff the statement spawns concurrency. -/
def stmtSpawns : Nat → PyStmt → Bool
  | 0, _ => true
  | fuel + 1, s =>
      match s with
      | .spawnThread _ => true
      | .whileLoop body => body.any (stmtSpawns fuel)
      | .forLoop body => body.any (stmtSpawns fuel)
      | _ => false

/-- `true` iff the expression contains a call of the given API function. -/
def exprUsesAPI : Nat → KerasAPI → PyExpr → Bool
  | 0, _, _ => true
  | fuel + 1, api, e =>
      match e with
      | .layerCall a args applied =>
          a == api ||
          (args.any fun p => exprUsesAPI fuel api p.2) ||
          (match applied with
           | some e2 => exprUsesAPI fuel api e2
           | Option.none => false)
      | .tuple es => es.any (exprUsesAPI fuel api)
      | _ => false

/-- `true` iff the statement contains a call of the given API function. -/
def stmtUsesAPI : Nat → KerasAPI → PyStmt → Bool
  | 0, _, _ => true
  | fuel + 1, api, s =>
      match s with
      | .assign _ e => exprUsesAPI (fuel + 1) api e
      | .exprOnly e => exprUsesAPI (fuel + 1) api e
      | .writeFile _ e => exprUsesAPI (fuel + 1) api e
      | .netSend e => exprUsesAPI (fuel + 1) api e
      | .whileLoop body => body.any (stmtUsesAPI fuel api)
      | .forLoop body => body.any (stmtUsesAPI fuel api)
      | .spawnThread body => body.any (stmtUsesAPI fuel api)
      | _ => false

/-- `true` iff some statement of the module calls the given API function. -/
def moduleUsesAPI (api : KerasAPI) (stmts : List PyStmt) : Bool :=
  stmts.any (stmtUsesAPI astFuel api)

/-- The layer-constructing API functions: calls to these declare shapes and
activations and build nothing but the symbolic graph. -/
def layerConstructors : List KerasAPI :=
  [.Input, .Conv2D, .MaxPooling2D, .Flatten, .Dense, .Dropout]

/-- `true` iff the expression is purely declarative: literals, names, tuples
of such, and layer-constructor calls with declarative arguments; `false` when
`fuel` runs out. -/
def exprPure : Nat → PyExpr → Bool
  | 0, _ => false
  | fuel + 1, e =>
      match e with
      | .intLit _ => true
      | .floatLit _ _ => true
      | .strLit _ => true
      | .nameRef _ => true
      | .tuple es => es.all (exprPure fuel)
      | .layerCall api args applied =>
          layerConstructors.contains api &&
          (args.all fun p => exprPure fuel p.2) &&
          (match applied with
           | some e2 => exprPure fuel e2
           | Option.none => true)
      | _ => false

/-- `true` iff the statement is purely declarative: an import, an assignment
of a declarative expression, or the corrupted line (which binds nothing and
has no effect, since it never parses). -/
def stmtPureDecl : PyStmt → Bool
  | .brokenLine _ => true
  | .pyImport _ _ => true
  | .assign _ e => exprPure astFuel e
  | _ => false

/-! ### An evaluator from the AST to the dataflow graph

Modelled from the spec: the Keras functional API, in which each layer call
appends a node to a symbolic graph and returns a tensor handle.  The
evaluator covers exactly the statement and expression forms that occur in the
snippet; unmodelled forms (loops, effectful statements, input channels inside
arguments) make evaluation fail rather than silently producing a value. -/

/-- External inputs a run could observe (stdin lines, argv, ...). -/
def World : Type := List String

/-- Runtime values of the interpreted module. -/
inductive PyValue
  | module (m : String)
  | int (n : Nat)
  | float (num den : Nat)
  | str (s : String)
  | tuple (vs : List PyValue)
  | tensor (idx : Nat)

/-- Interpreter state: the environment of bound names (most recent binding
first) and the nodes of the symbolic graph built so far. -/
structure EvalState where
  env : List (String × PyValue)
  nodes : List Node

/-- Looks up the most recent binding of `k`. -/
def lookupEnv (env : List (String × PyValue)) (k : String) : Option PyValue :=
  match env.find? (fun p => p.1 == k) with
  | some p => some p.2
  | Option.none => Option.none

/-- Evaluates an atomic expression (literal or name). -/
def evalAtom (st : EvalState) : PyExpr → Option PyValue
  | .intLit n => some (.int n)
  | .floatLit a b => some (.float a b)
  | .strLit s => some (.str s)
  | .nameRef s => lookupEnv st.env s
  | _ => Option.none

/-- Evaluates a list of atomic expressions. -/
def evalList (st : EvalState) : List PyExpr → Option (List PyValue)
  | [] => some []
  | e :: es =>
      match evalAtom st e, evalList st es with
      | some v, some vs => some (v :: vs)
      | _, _ => Option.none

/-- Evaluates an argument expression: an atom or a tuple of atoms. -/
def evalArgExpr (st : EvalState) : PyExpr → Option PyValue
  | .tuple es => (evalList st es).map PyValue.tuple
  | e => evalAtom st e

/-- Evaluates a pure right-hand side; `readLine` consumes the head of the
world's stdin. -/
def evalPure (st : EvalState) (w : World) : PyExpr → Option PyValue
  | .readLine => some (.str (w.headD ""))
  | e => evalArgExpr st e

/-- Evaluates the argument list of a call, keeping keyword labels. -/
def evalArgs (st : EvalState) :
    List (Option String × PyExpr) → Option (List (Option String × PyValue))
  | [] => some []
  | (k, e) :: rest =>
      match evalArgExpr st e, evalArgs st rest with
      | some v, some vs => some ((k, v) :: vs)
      | _, _ => Option.none

/-- The value of the keyword argument `k`, if present. -/
def kwargV (vargs : List (Option String × PyValue)) (k : String) : Option PyValue :=
  match vargs.find? (fun p => p.1 == some k) with
  | some p => some p.2
  | Option.none => Option.none

/-- The `i`-th positional argument, if present. -/
def posV (vargs : List (Option String × PyValue)) (i : Nat) : Option PyValue :=
  match (vargs.filter fun p => p.1 == (Option.none : Option String)).get? i with
  | some p => some p.2
  | Option.none => Option.none

/-- Reads a natural number out of an argument value. -/
def valueToNat : Option PyValue → Option Nat
  | some (.int n) => some n
  | _ => Option.none

/-- Reads a list of naturals out of a list of values. -/
def natList : List PyValue → Option (List Nat)
  | [] => some []
  | .int n :: vs => (natList vs).map (fun ns => n :: ns)
  | _ => Option.none

/-- Reads a shape (tuple of ints) out of an argument value. -/
def valueToShape : Option PyValue → Option (List Nat)
  | some (.tuple vs) => natList vs
  | _ => Option.none

/-- Decodes an `activation=` string. -/
def valueToActivation : Option PyValue → Option Activation
  | some (.str "relu") => some .relu
  | some (.str "softmax") => some .softmax
  | some (.str "sigmoid") => some .sigmoid
  | _ => Option.none

/-- Decodes a `padding=` string. -/
def valueToPadding : Option PyValue → Option Padding
  | some (.str "same") => some .same
  | some (.str "valid") => some .valid
  | _ => Option.none

/-- Decodes a dropout-rate literal. -/
def valueToRate : Option PyValue → Option (Nat × Nat)
  | some (.float a b) => some (a, b)
  | _ => Option.none

/-- Decodes a layer-constructor call with evaluated arguments into a
`Layer`, following the signatures of the six constructors the snippet
uses. -/
def decodeLayer (api : KerasAPI)
    (vargs : List (Option String × PyValue)) : Option Layer :=
  match api with
  | .Input => (valueToShape (kwargV vargs "shape")).map Layer.input
  | .Conv2D =>
      match valueToNat (posV vargs 0), valueToShape (kwargV vargs "kernel_size"),
          valueToPadding (kwargV vargs "padding"),
          valueToActivation (kwargV vargs "activation") with
      | some f, some [kh, kw], some p, some a => some (.conv2D f kh kw p a)
      | _, _, _, _ => Option.none
  | .MaxPooling2D => (valueToPadding (kwargV vargs "padding")).map Layer.maxPooling2D
  | .Flatten => some .flatten
  | .Dense =>
      match valueToNat (posV vargs 0), valueToActivation (kwargV vargs "activation") with
      | some u, some a =>
          some (.dense u a
            (match kwargV vargs "name" with
             | some (.str s) => some s
             | _ => Option.none))
      | _, _ => Option.none
  | .Dropout =>
      match valueToRate (posV vargs 0) with
      | some (a, b) => some (.dropout a b)
      | _ => Option.none
  | _ => Option.none

/-- Executes one statement: imports bind the module alias; a layer call
appends a node to the graph and binds the resulting tensor; other assignments
bind the evaluated value; every unmodelled form fails. -/
def evalStmt (w : World) (st : EvalState) : PyStmt → Option EvalState
  | .pyImport m a => some { st with env := (a, .module m) :: st.env }
  | .assign lhs (.layerCall api args applied) =>
      match evalArgs st args with
      | some vargs =>
          match decodeLayer api vargs with
          | some layer =>
              match applied with
              | Option.none =>
                  match api with
                  | .Input =>
                      some ⟨(lhs, .tensor st.nodes.length) :: st.env,
                            st.nodes ++ [⟨layer, Option.none⟩]⟩
                  | _ => Option.none
              | some e =>
                  match evalPure st w e with
                  | some (.tensor j) =>
                      some ⟨(lhs, .tensor st.nodes.length) :: st.env,
                            st.nodes ++ [⟨layer, some j⟩]⟩
                  | _ => Option.none
          | Option.none => Option.none
      | Option.none => Option.none
  | .assign lhs e =>
      match evalPure st w e with
      | some v => some { st with env := (lhs, v) :: st.env }
      | Option.none => Option.none
  | _ => Option.none

/-- Executes a statement list from a given state. -/
def evalStmts (w : World) : EvalState → List PyStmt → Option EvalState
  | st, [] => some st
  | st, s :: rest =>
      match evalStmt w st s with
      | some st2 => evalStmts w st2 rest
      | Option.none => Option.none

/-- Runs the construction (the declarations of the module) from the empty
state under external inputs `w`. -/
def runDecls (w : World) : Option EvalState :=
  evalStmts w ⟨[], []⟩ declsAST

/-! ### Real-valued semantics of the two output activations -/

/-- Modelled from the spec: the softmax activation over `n` logits, as
applied by the `weather` head. -/
noncomputable def softmax {n : ℕ} (x : Fin n → ℝ) (i : Fin n) : ℝ :=
  Real.exp (x i) / ∑ j, Real.exp (x j)

/-- Modelled from the spec: the logistic sigmoid activation, applied
elementwise by the `ground` head. -/
noncomputable def sigmoid (y : ℝ) : ℝ :=
  1 / (1 + Real.exp (-y))

end KerasModel

namespace KerasModel

/-- Every component of a softmax lies in `[0, 1]`. -/
theorem softmax_mem_Icc {n : ℕ} [NeZero n] (x : Fin n → ℝ) (i : Fin n) :
    softmax x i ∈ Set.Icc (0 : ℝ) 1 := by
  haveI : Nonempty (Fin n) := ⟨⟨0, Nat.pos_of_ne_zero (NeZero.ne n)⟩⟩
  have hpos : 0 < ∑ j, Real.exp (x j) :=
    Finset.sum_pos (fun j _ => Real.exp_pos _) Finset.univ_nonempty
  constructor
  · exact div_nonneg (Real.exp_pos _).le hpos.le
  · unfold softmax
    rw [div_le_one hpos]
    exact Finset.single_le_sum (fun j _ => (Real.exp_pos (x j)).le) (Finset.mem_univ i)

/-- The components of a softmax sum to `1`. -/
theorem softmax_sum_one {n : ℕ} [NeZero n] (x : Fin n → ℝ) :
    ∑ i, softmax x i = 1 := by
  haveI : Nonempty (Fin n) := ⟨⟨0, Nat.pos_of_ne_zero (NeZero.ne n)⟩⟩
  have hpos : 0 < ∑ j, Real.exp (x j) :=
    Finset.sum_pos (fun j _ => Real.exp_pos _) Finset.univ_nonempty
  unfold softmax
  rw [← Finset.sum_div, div_self hpos.ne']

/-- The sigmoid of any real lies in `[0, 1]`. -/
theorem sigmoid_mem_Icc (y : ℝ) : sigmoid y ∈ Set.Icc (0 : ℝ) 1 := by
  have h1 : (0 : ℝ) < 1 + Real.exp (-y) := by positivity
  unfold sigmoid
  constructor
  · positivity
  · rw [div_le_one h1]
    have h2 := (Real.exp_pos (-y)).le
    linarith

/-- Claim C1: the declared network has exactly two classification output
layers, both applied to the same tensor `fc_2` (node 9): a Dense layer with 4
units named "weather" and a Dense layer with 13 units named "ground"; no other
output layer is declared. -/
theorem two_output_heads_on_fc2 :
    sinks snippetNodes = [10, 11] ∧
    snippetNodes.get? 10 = some ⟨.dense 4 .softmax (some "weather"), some 9⟩ ∧
    snippetNodes.get? 11 = some ⟨.dense 13 .sigmoid (some "ground"), some 9⟩ := by
  decide

/-- Claim C2: the first statement of the module is the token sequence
`mport tensorflow as tf`, whose leading `mport` is a NAME token (not a Python
keyword) immediately followed by another NAME token, which no Python statement
may begin with; hence every execution of the module raises `SyntaxError` at
parse time and none of the declarations that follow takes effect (no name is
bound). -/
theorem module_raises_syntax_error :
    tokenize firstLine = ["mport", "tensorflow", "as", "tf"] ∧
    isPyName "mport" = true ∧
    pythonKeywords.contains "mport" = false ∧
    pythonSoftKeywords.contains "mport" = false ∧
    startsWithAdjacentNames (tokenize firstLine) = true ∧
    runModule (tokenize firstLine) declaredNames = .syntaxError := by
  decide

/-- Claim C3, counterexample: the dataflow graph is not a single chain in
which every layer call consumes the result of the immediately preceding call:
`ground_output` (node 11) takes node 9 (`fc_2`), not node 10, as its input,
and node 9 has two consumers (fan-out). -/
theorem not_a_single_chain :
    linearChain snippetNodes = false ∧
    nodeInput snippetNodes 11 = some (some 9) ∧
    consumers snippetNodes 9 = [10, 11] := by
  decide

/-- Claim C3, amended: every layer call other than the second output head
takes as its sole input the result of the immediately preceding call, the
second output head (`ground_output`, node 11) takes `fc_2` (node 9), and
`fc_2` is the only fan-out point: the dataflow graph is a single chain from
the input to `fc_2` that forks at `fc_2` into the two output heads. -/
theorem chain_forking_at_fc2 :
    (∀ j : Fin 10, nodeInput snippetNodes (j.val + 1) = some (some j.val)) ∧
    nodeInput snippetNodes 11 = some (some 9) ∧
    fanOutPoints snippetNodes = [9] := by
  decide

/-- Claim C5: the declared architecture is convolutional: the convolution
layers are exactly nodes 1 and 3, both `Conv2D(32, 3x3, padding same, relu)`,
node 1 applied to the image input (node 0); each is followed by a
`MaxPooling2D(padding same)` (nodes 2 and 4); the flatten layer is node 5 and
the dense layers are nodes 6, 8, 10, 11, so every convolution precedes every
dense layer. -/
theorem convolutions_precede_dense :
    layerIndices isConv snippetNodes = [1, 3] ∧
    nodeLayer snippetNodes 1 = some (.conv2D 32 3 3 .same .relu) ∧
    nodeLayer snippetNodes 3 = some (.conv2D 32 3 3 .same .relu) ∧
    nodeInput snippetNodes 1 = some (some 0) ∧
    nodeInput snippetNodes 3 = some (some 2) ∧
    layerIndices isPool snippetNodes = [2, 4] ∧
    nodeInput snippetNodes 2 = some (some 1) ∧
    nodeInput snippetNodes 4 = some (some 3) ∧
    layerIndices isFlatten snippetNodes = [5] ∧
    layerIndices isDense snippetNodes = [6, 8, 10, 11] ∧
    ((layerIndices isConv snippetNodes).all fun c =>
      (layerIndices isDense snippetNodes).all fun d => c < d) = true := by
  decide

/-- Claim C8: `IM_SIZE` is 16 and the single input node has shape
`(16, 16, 3)`; the two `same`-padded poolings halve (rounding up) each
spatial dimension, so the tensor entering `Flatten` has shape `4 x 4 x 32`
and the flattened feature vector feeding the first `Dense(128)` layer (node
6, consuming node 5) has `4 * 4 * 32 = 512` elements. -/
theorem input_shape_and_flattened_size :
    IM_SIZE = 16 ∧
    nodeLayer snippetNodes 0 = some (.input [16, 16, 3]) ∧
    nodeInput snippetNodes 0 = some Option.none ∧
    shapeAt snippetNodes 12 4 = some [4, 4, 32] ∧
    shapeAt snippetNodes 12 5 = some [4 * 4 * 32] ∧
    nodeInput snippetNodes 6 = some (some 5) ∧
    nodeLayer snippetNodes 6 = some (.dense 128 .relu Option.none) ∧
    4 * 4 * 32 = 512 := by
  decide

/-- Claim C4: the `weather` head (node 10) applies softmax to 4 units, so for
every input its 4 values each lie in `[0, 1]` and sum to `1`; the `ground`
head (node 11) applies sigmoid elementwise to 13 units, so for every input
its 13 values each lie in `[0, 1]` independently. -/
theorem weather_softmax_ground_sigmoid :
    nodeLayer snippetNodes 10 = some (.dense 4 .softmax (some "weather")) ∧
    nodeLayer snippetNodes 11 = some (.dense 13 .sigmoid (some "ground")) ∧
    (∀ x : Fin 4 → ℝ, ∀ i : Fin 4, softmax x i ∈ Set.Icc (0 : ℝ) 1) ∧
    (∀ x : Fin 4 → ℝ, ∑ i, softmax x i = 1) ∧
    (∀ x : Fin 13 → ℝ, ∀ i : Fin 13, sigmoid (x i) ∈ Set.Icc (0 : ℝ) 1) := by
  refine ⟨by decide, by decide, ?_, ?_, ?_⟩
  · exact fun x i => softmax_mem_Icc x i
  · exact fun x => softmax_sum_one x
  · exact fun x i => sigmoid_mem_Icc (x i)

/-- Claim C6: the module is purely declarative and effect-free: every
statement is an import, the corrupted line, or an assignment of a
layer-constructor call or literal; no statement reads stdin, files, `argv`
or the network, none writes files or the network, there is no loop and no
thread, and the training, evaluation, compilation and persistence API
functions are never called. -/
theorem snippet_declarative_effect_free :
    moduleAST.all stmtPureDecl = true ∧
    moduleAST.all (fun s => !(stmtReadsWorld astFuel s)) = true ∧
    moduleAST.all (fun s => !(stmtWritesWorld astFuel s)) = true ∧
    moduleAST.all (fun s => !(stmtHasLoop astFuel s)) = true ∧
    moduleAST.all (fun s => !(stmtSpawns astFuel s)) = true ∧
    moduleUsesAPI .fit moduleAST = false ∧
    moduleUsesAPI .evaluate moduleAST = false ∧
    moduleUsesAPI .compile moduleAST = false ∧
    moduleUsesAPI .save moduleAST = false := by
  decide

/-- Claim C7: no statement of the module calls `tf.keras.Model`, so the
declared output tensors are never assembled into a model object; both heads
(nodes 10 and 11) consume the same tensor `fc_2` (node 9) and share the
entire backbone: the chain Dropout, Dense(128), Dropout, Dense(128),
Flatten, MaxPooling2D, Conv2D, MaxPooling2D, Conv2D back to the single image
input. -/
theorem no_model_object_shared_backbone :
    moduleUsesAPI .Model moduleAST = false ∧
    nodeInput snippetNodes 10 = some (some 9) ∧
    nodeInput snippetNodes 11 = some (some 9) ∧
    ancestors snippetNodes 12 10 = [9, 8, 7, 6, 5, 4, 3, 2, 1, 0] ∧
    ancestors snippetNodes 12 11 = [9, 8, 7, 6, 5, 4, 3, 2, 1, 0] ∧
    (ancestors snippetNodes 12 10).map (nodeLayer snippetNodes) =
      [some (.dropout 2 10), some (.dense 128 .relu Option.none),
       some (.dropout 2 10), some (.dense 128 .relu Option.none),
       some .flatten, some (.maxPooling2D .same),
       some (.conv2D 32 3 3 .same .relu), some (.maxPooling2D .same),
       some (.conv2D 32 3 3 .same .relu),
       some (.input [IM_SIZE, IM_SIZE, 3])] := by
  decide

/-- Claim C9: the construction of the layer graph is a static, deterministic
sequence of declarations: no statement of the module reads any external
input and none contains data-dependent control flow (loops), and running the
declarations under any external world yields exactly the same architecture,
namely `snippetNodes`; in particular any two runs agree. -/
theorem construction_deterministic :
    moduleAST.all (fun s => !(stmtReadsWorld astFuel s)) = true ∧
    moduleAST.all (fun s => !(stmtHasLoop astFuel s)) = true ∧
    (∀ w : World, (runDecls w).map EvalState.nodes = some snippetNodes) ∧
    (∀ w1 w2 : World, runDecls w1 = runDecls w2) :=
  ⟨by decide, by decide, fun _ => rfl, fun _ _ => rfl⟩

end KerasModel
